import Mathlib

/-!
# seithi-backend: HTTP handlers and data access layer

A shallow embedding of `seithi-backend` (`main.go`, `database.go`, `models.go`).

* Go strings are Lean strings; where the code walks the bytes of a string
  (`strconv.Atoi`) the UTF-8 bytes are used.
* Go `int` is the 64-bit signed integer; values are carried as `Int`, and the
  unsigned arithmetic inside `strconv` is carried as `Nat` modulo `2^64`.
* `float64` scores are values of a type `F` with the total order the store
  compares them by (`>=` in `WHERE`, `ORDER BY`). No floating point
  arithmetic is performed by the Go code.
* The connection pool is an explicit record of answers (`Pool`): what each
  statement of `database.go` yields when it is run. `Store.pool` is the pool of
  a store that evaluates the SQL text of each statement on a table of articles.
* An `http.ResponseWriter` is an explicit state (`ResponseWriter`) threaded
  through the handler.
-/

namespace Seithi

/-! ## models.go -/

/-- A publication timestamp (`time.Time`), as the store orders it. -/
abbrev Time := Int

/-- The record `Article` of models.go. `PublishedAt` is `*time.Time`: `none` is the nil pointer. -/
structure Article (F : Type) where
  ID : String
  Title : String
  URL : String
  Domain : String
  PublishedAt : Option Time
  EpistemicOpinionScore : F
  EpistemicMixedScore : F
  EpistemicFactsScore : F
  EmotiveTriggeringScore : F
  EmotiveMixedScore : F
  EmotiveCalmScore : F
  DensityFluffScore : F
  DensityStandardScore : F
  DensityDeepScore : F
deriving DecidableEq, Repr

/-- The record `FeedbackRequest` of models.go. -/
structure FeedbackRequest where
  ArticleID : String
  Axis : String
  UserScore : Int
deriving DecidableEq, Repr

/-- The record `ArticlesResponse` of models.go. -/
structure ArticlesResponse (F : Type) where
  Articles : List (Article F)
  Total : Int
  Limit : Int
  Offset : Int
deriving DecidableEq, Repr

/-- The record `StatsResponse` of models.go: the three averages are plain `float64`. -/
structure StatsResponse (F : Type) where
  TotalArticles : Int
  AvgFactsScore : F
  AvgCalmScore : F
  AvgDeepScore : F
deriving DecidableEq, Repr

/-! ## Go errors -/

/-- A Go `error` value as the code sees it: the driver's sentinel for an empty
result, any other failure, and `fmt.Errorf("<msg>: %w", cause)`. -/
inductive GoError where
  | ErrNoRows
  | failure (msg : String)
  | wrapped (msg : String) (cause : GoError)
deriving DecidableEq, Repr

/-- The text of `err.Error()`. -/
def GoError.Error : GoError → String
  | .ErrNoRows => "no rows in result set"
  | .failure msg => msg
  | .wrapped msg cause => msg ++ ": " ++ cause.Error

/-! ## strconv.Atoi (Go standard library, 64-bit `int`) -/

/-- The two causes a `*strconv.NumError` carries. -/
inductive NumError where
  | ErrSyntax
  | ErrRange
deriving DecidableEq, Repr

/-- The bytes of a Go string (`[]byte(s)`). -/
def goBytes (s : String) : List Nat :=
  s.toList.flatMap (fun c => (String.utf8EncodeChar c).map UInt8.toNat)

/-- The constant `strconv.IntSize` on a 64-bit platform. -/
def intSize : Nat := 64

/-- The constant `maxUint64 = 1<<64 - 1`. -/
def maxUint64 : Nat := 2 ^ 64 - 1

/-- The helper `lower(c) = c | ('x' - 'X')` of strconv. -/
def lower (c : Nat) : Nat := c ||| 32

/-- The digit switch of `ParseUint`: the value `d` of byte `c`, or `none` for the
`default` branch (syntax error). The underscore case needs `base == 0`. -/
def digitOf (c : Nat) : Option Nat :=
  if 48 ≤ c ∧ c ≤ 57 then some (c - 48)
  else if 97 ≤ lower c ∧ lower c ≤ 122 then some (lower c - 97 + 10)
  else none

/-- The loop of `ParseUint(s, 10, 64)` over the bytes of `s`, `n` the value so far. -/
def parseUintLoop (cutoff maxVal : Nat) : List Nat → Nat → Nat × Option NumError
  | [], n => (n, none)
  | c :: rest, n =>
    match digitOf c with
    | none => (0, some .ErrSyntax)
    | some d =>
      if d ≥ 10 then (0, some .ErrSyntax)
      else if n ≥ cutoff then (maxVal, some .ErrRange)
      else
        let n10 := (n * 10) % 2 ^ 64
        let n1 := (n10 + d) % 2 ^ 64
        if n1 < n10 ∨ n1 > maxVal then (maxVal, some .ErrRange)
        else parseUintLoop cutoff maxVal rest n1

/-- The function `strconv.ParseUint(s, 10, 0)` on the bytes of `s`: `bitSize` 0 becomes
`IntSize`, the cutoff is `maxUint64/10 + 1`, and `maxVal = uint64(1)<<64 - 1` wraps
to `maxUint64`. -/
def ParseUint (s : List Nat) : Nat × Option NumError :=
  if s = [] then (0, some .ErrSyntax)
  else
    let cutoff := maxUint64 / 10 + 1
    let maxVal := ((2 ^ intSize) % 2 ^ 64 + 2 ^ 64 - 1) % 2 ^ 64
    parseUintLoop cutoff maxVal s 0

/-- The function `strconv.ParseInt(s, 10, 0)` on the bytes of `s`. -/
def ParseInt (s : List Nat) : Int × Option NumError :=
  match s with
  | [] => (0, some .ErrSyntax)
  | c0 :: tl =>
    -- pick off the leading sign
    let neg := decide (c0 = 45)
    let s1 := if c0 = 43 then tl else if c0 = 45 then tl else s
    -- convert unsigned and check range
    match ParseUint s1 with
    | (_, some .ErrSyntax) => (0, some .ErrSyntax)
    | (un, _) =>
      let cutoff : Nat := 2 ^ (intSize - 1)
      if neg = false ∧ un ≥ cutoff then (((cutoff - 1 : Nat) : Int), some .ErrRange)
      else if neg = true ∧ un > cutoff then (-((cutoff : Nat) : Int), some .ErrRange)
      else
        let n : Int := (un : Int)
        (if neg then -n else n, none)

/-- The loop of the fast path of `Atoi`: `ch -= '0'` is byte arithmetic. -/
def atoiFastLoop : List Nat → Int → Int × Option NumError
  | [], n => (n, none)
  | ch :: rest, n =>
    let ch0 := (ch + 256 - 48) % 256
    if ch0 > 9 then (0, some .ErrSyntax)
    else atoiFastLoop rest (n * 10 + (ch0 : Int))

/-- The fast path of `Atoi` (small integers that fit the `int` type), on the bytes of `s`. -/
def atoiFast (s : List Nat) : Int × Option NumError :=
  match s with
  | [] => (0, some .ErrSyntax)
  | c0 :: tl =>
    let signed := decide (c0 = 45 ∨ c0 = 43)
    let s1 := if signed then tl else s
    if signed = true ∧ s1.length < 1 then (0, some .ErrSyntax)
    else
      match atoiFastLoop s1 0 with
      | (_, some e) => (0, some e)
      | (n, none) => (if c0 = 45 then -n else n, none)

/-- The function `strconv.Atoi(s)`: the value and the error it returns. The fast path
is taken when `0 < len(s) < 19`, otherwise `ParseInt(s, 10, 0)` (invalid, big, or
underscored integers). -/
def Atoi (str : String) : Int × Option NumError :=
  let s := goBytes str
  let sLen := s.length
  if 0 < sLen ∧ sLen < 19 then atoiFast s else ParseInt s

/-! ## The connection pool (github.com/jackc/pgx/v5/pgxpool), as the code uses it -/

/-- What `pool.Query` hands to `GetArticles`: the error `Query` itself returns, what
`rows.Scan` yields for each row for which `rows.Next()` is true, and the value of
`rows.Err()` once `rows.Next()` has returned false. The driver documents that `Query`
returns only the errors met while sending the query and setting up the rows, and that
`rows.Err()` tells whether the query ran to its end. -/
structure RowsOutcome (F : Type) where
  err : Option GoError
  scans : List (Except GoError (Article F))
  iterErr : Option GoError

/-- The aggregate row of the statistics statement: `COUNT(*)` and three `AVG`, each
`AVG` being NULL (`none`) or a value. -/
structure StatsRow (F : Type) where
  total : Int
  avg_facts : Option F
  avg_calm : Option F
  avg_deep : Option F

/-- The answers of the pool to the five statements of database.go, by their
parameters `$1, $2, ...`. A `QueryRow` answer is the failure of the query or the rows
it produced. -/
structure Pool (F : Type) where
  QueryPage : F → F → F → Int → Int → RowsOutcome F
  QueryRowCount : F → F → F → Except GoError (List Int)
  QueryRowByID : String → Except GoError (List (Article F))
  ExecInsert : String → String → Int → Option GoError
  QueryRowStats : Except GoError (List (StatsRow F))

/-- The method `Row.Scan` of a `QueryRow`: the error of the query, `ErrNoRows` when
no row came back, otherwise the scan of the first row. -/
def RowScan {R T : Type} (res : Except GoError (List R)) (scan : R → Except GoError T) :
    Except GoError T :=
  match res with
  | .error e => .error e
  | .ok [] => .error .ErrNoRows
  | .ok (r :: _) => scan r

/-- Scanning a nullable float column into a `*float64` destination: NULL cannot be
stored in a `float64`. -/
def scanFloat64 {F : Type} : Option F → Except GoError F
  | none => .error (.failure "cannot scan NULL into *float64")
  | some x => .ok x

/-! ## database.go -/

/-- What `GetArticles` returns: `([]Article, int, error)`; the nil slice is `[]`. -/
structure ArticlesResult (F : Type) where
  articles : List (Article F)
  total : Int
  err : Option GoError

/-- The loop `for rows.Next() { ... rows.Scan ... append }` of `GetArticles`. -/
def scanRows {F : Type} : List (Except GoError (Article F)) → List (Article F) →
    Except GoError (List (Article F))
  | [], articles => .ok articles
  | .error e :: _, _ => .error (.wrapped "scan failed" e)
  | .ok a :: rest, articles => scanRows rest (articles ++ [a])

/-- The method `GetArticles` of database.go. -/
def GetArticles {F : Type} (pool : Pool F) (limit offset : Int) (minFacts minCalm minDeep : F) :
    ArticlesResult F :=
  let rows := pool.QueryPage minFacts minCalm minDeep limit offset
  match rows.err with
  | some err => ⟨[], 0, some (.wrapped "query failed" err)⟩
  | none =>
    match scanRows rows.scans [] with
    | .error err => ⟨[], 0, some err⟩
    | .ok articles =>
      -- get total count
      match RowScan (pool.QueryRowCount minFacts minCalm minDeep) (fun n => .ok n) with
      | .error err => ⟨[], 0, some (.wrapped "count query failed" err)⟩
      | .ok total => ⟨articles, total, none⟩

/-- The method `GetArticleByID` of database.go. -/
def GetArticleByID {F : Type} (pool : Pool F) (id : String) : Except GoError (Article F) :=
  match RowScan (pool.QueryRowByID id) (fun a => .ok a) with
  | .error err => .error (.wrapped "query failed" err)
  | .ok a => .ok a

/-- The method `SaveFeedback` of database.go. -/
def SaveFeedback {F : Type} (pool : Pool F) (feedback : FeedbackRequest) : Option GoError :=
  match pool.ExecInsert feedback.ArticleID feedback.Axis feedback.UserScore with
  | some err => some (.wrapped "insert failed" err)
  | none => none

/-- The scan of the aggregate row into `&stats.TotalArticles, &stats.AvgFactsScore,
&stats.AvgCalmScore, &stats.AvgDeepScore`. -/
def scanStats {F : Type} (row : StatsRow F) : Except GoError (StatsResponse F) :=
  match scanFloat64 row.avg_facts, scanFloat64 row.avg_calm, scanFloat64 row.avg_deep with
  | .ok f, .ok c, .ok d => .ok ⟨row.total, f, c, d⟩
  | .error e, _, _ => .error e
  | _, .error e, _ => .error e
  | _, _, .error e => .error e

/-- The method `GetStats` of database.go. -/
def GetStats {F : Type} (pool : Pool F) : Except GoError (StatsResponse F) :=
  match RowScan pool.QueryRowStats scanStats with
  | .error err => .error (.wrapped "query failed" err)
  | .ok stats => .ok stats

/-! ## The store: the SQL text of each statement, evaluated on a table -/

section Store
variable {F : Type} [LinearOrder F]

/-- The `WHERE` clause shared by the page statement and the count statement. -/
def whereClause (minFacts minCalm minDeep : F) (a : Article F) : Bool :=
  decide (a.EpistemicFactsScore ≥ minFacts) && decide (a.EmotiveCalmScore ≥ minCalm) &&
    decide (a.DensityDeepScore ≥ minDeep)

/-- The last sort key `published_at DESC`: the store sorts NULL as larger than every
value, so under `DESC` a row without a timestamp comes first. -/
def publishedDesc : Option Time → Option Time → Bool
  | none, _ => true
  | some _, none => false
  | some x, some y => decide (y ≤ x)

/-- The clause `ORDER BY density_deep_score DESC, emotive_calm_score DESC, published_at DESC`:
row `a` may stand before row `b`. -/
def orderBy (a b : Article F) : Bool :=
  if b.DensityDeepScore < a.DensityDeepScore then true
  else if a.DensityDeepScore < b.DensityDeepScore then false
  else if b.EmotiveCalmScore < a.EmotiveCalmScore then true
  else if a.EmotiveCalmScore < b.EmotiveCalmScore then false
  else publishedDesc a.PublishedAt b.PublishedAt

/-- The rows of the page statement before `LIMIT ... OFFSET ...`: the rows that pass
the `WHERE` clause, sorted (rows the sort keys do not separate keep the order of the table). -/
def selectOrdered (articles : List (Article F)) (minFacts minCalm minDeep : F) :
    List (Article F) :=
  (articles.filter (whereClause minFacts minCalm minDeep)).insertionSort
    (fun a b => orderBy a b = true)

/-- The page statement with `LIMIT $4 OFFSET $5` for parameters the store accepts. -/
def selectPage (articles : List (Article F)) (minFacts minCalm minDeep : F) (limit offset : Nat) :
    List (Article F) :=
  ((selectOrdered articles minFacts minCalm minDeep).drop offset).take limit

/-- The count statement `SELECT COUNT(*) ... WHERE ...`. -/
def selectCount (articles : List (Article F)) (minFacts minCalm minDeep : F) : Int :=
  ((articles.filter (whereClause minFacts minCalm minDeep)).length : Int)

/-- The statement `SELECT ... WHERE id = $1`. -/
def selectByID (articles : List (Article F)) (id : String) : List (Article F) :=
  articles.filter (fun a => decide (a.ID = id))

/-- The statistics statement: one row, `COUNT(*)` and the three `AVG`, which are NULL
over no rows. The mean of a non-empty column is the parameter `avg`. -/
def selectStats (avg : List F → F) (articles : List (Article F)) : StatsRow F :=
  match articles with
  | [] => ⟨0, none, none, none⟩
  | _ :: _ =>
    ⟨(articles.length : Int), some (avg (articles.map (·.EpistemicFactsScore))),
      some (avg (articles.map (·.EmotiveCalmScore))),
      some (avg (articles.map (·.DensityDeepScore)))⟩

/-- The pool of a store that holds the table `articles` and answers every statement
without failure. The scored columns, title, url and domain are taken to be NOT NULL;
`published_at` may be NULL. A negative `LIMIT` or `OFFSET` is rejected by the store
when the statement runs and no row is delivered; `deferred` says whether the driver
reports that rejection from `rows.Err()` only (true) or from `Query` as well (false),
and the properties below hold for both. -/
def Store.pool (avg : List F → F) (deferred : Bool) (articles : List (Article F)) : Pool F where
  QueryPage := fun minFacts minCalm minDeep limit offset =>
    if limit < 0 then
      ⟨if deferred then none else some (.failure "LIMIT must not be negative"), [],
        some (.failure "LIMIT must not be negative")⟩
    else if offset < 0 then
      ⟨if deferred then none else some (.failure "OFFSET must not be negative"), [],
        some (.failure "OFFSET must not be negative")⟩
    else
      ⟨none, (selectPage articles minFacts minCalm minDeep limit.toNat offset.toNat).map .ok,
        none⟩
  QueryRowCount := fun minFacts minCalm minDeep =>
    .ok [selectCount articles minFacts minCalm minDeep]
  QueryRowByID := fun id => .ok (selectByID articles id)
  ExecInsert := fun _ _ _ => none
  QueryRowStats := .ok [selectStats avg articles]

end Store

/-! ## net/http: the response writer -/

/-- What a handler writes to the body: the value given to `json.NewEncoder(w).Encode`,
or the line printed by `http.Error`. -/
inductive Payload (F : Type) where
  | articles (v : ArticlesResponse F)
  | article (v : Article F)
  | stats (v : StatsResponse F)
  | object (kv : List (String × String))
  | text (msg : String)
deriving DecidableEq, Repr

/-- The state of an `http.ResponseWriter`: the header map the handler edits, whether
the status line went out, the status, the header map as it was when the status line
went out, and the body written so far. -/
structure ResponseWriter (F : Type) where
  header : List (String × String)
  wroteHeader : Bool
  status : Nat
  sentHeader : List (String × String)
  body : List (Payload F)
deriving DecidableEq, Repr

/-- The writer a handler receives. -/
def ResponseWriter.new {F : Type} : ResponseWriter F := ⟨[], false, 0, [], []⟩

/-- The call `w.Header().Set(key, value)`. -/
def ResponseWriter.HeaderSet {F : Type} (w : ResponseWriter F) (key value : String) :
    ResponseWriter F :=
  { w with header := (key, value) :: w.header.filter (fun kv => decide (kv.1 ≠ key)) }

/-- The call `w.Header().Del(key)`. -/
def ResponseWriter.HeaderDel {F : Type} (w : ResponseWriter F) (key : String) :
    ResponseWriter F :=
  { w with header := w.header.filter (fun kv => decide (kv.1 ≠ key)) }

/-- The call `w.WriteHeader(code)`: the first call fixes the status and the headers
that are sent; a later call changes nothing. -/
def ResponseWriter.WriteHeader {F : Type} (w : ResponseWriter F) (code : Nat) :
    ResponseWriter F :=
  if w.wroteHeader then w
  else { w with wroteHeader := true, status := code, sentHeader := w.header }

/-- The call `w.Write(...)`: sends status 200 first when no status went out yet. -/
def ResponseWriter.Write {F : Type} (w : ResponseWriter F) (p : Payload F) : ResponseWriter F :=
  let w1 := if w.wroteHeader then w else w.WriteHeader 200
  { w1 with body := w1.body ++ [p] }

/-- The function `http.Error(w, error, code)`. -/
def httpError {F : Type} (w : ResponseWriter F) (error : String) (code : Nat) :
    ResponseWriter F :=
  let w := w.HeaderDel "Content-Length"
  let w := w.HeaderSet "Content-Type" "text/plain; charset=utf-8"
  let w := w.HeaderSet "X-Content-Type-Options" "nosniff"
  let w := w.WriteHeader code
  w.Write (.text error)

/-- The value of header `key` among the headers sent with the status line. -/
def ResponseWriter.sent {F : Type} (w : ResponseWriter F) (key : String) : Option String :=
  (w.sentHeader.find? (fun kv => decide (kv.1 = key))).map (·.2)

/-! ## main.go -/

/-- The parts of an `*http.Request` the handlers read: the parsed query
(`r.URL.Query()`, key to values), the route parameters (`chi.URLParam`) and the body. -/
structure Request where
  Query : String → List String
  URLParam : String → String
  Body : String

/-- The method `url.Values.Get`: the first value of the key, or the empty string. -/
def Get (v : String → List String) (key : String) : String :=
  match v key with
  | [] => ""
  | x :: _ => x

/-- Library functions the handlers call and whose results are taken as given: the
value `strconv.ParseFloat(s, 64)` returns (its error is dropped by the handler) and
the outcome of `json.NewDecoder(r.Body).Decode(&feedback)`. -/
structure Env (F : Type) where
  ParseFloat : String → F
  Decode : String → Except GoError FeedbackRequest

/-- The values `handleGetArticles` passes to `GetArticles`. -/
structure ArticlesArgs (F : Type) where
  limit : Int
  offset : Int
  minFacts : F
  minCalm : F
  minDeep : F

/-- The first part of `handleGetArticles` (main.go, "Parse query parameters"): the
arguments of the call of `GetArticles`. -/
def parseQuery {F : Type} (env : Env F) (r : Request) : ArticlesArgs F :=
  let limit := (Atoi (Get r.Query "limit")).1
  let limit := if limit = 0 then 20 else limit
  let limit := if limit > 100 then 100 else limit
  let offset := (Atoi (Get r.Query "offset")).1
  let minFacts := env.ParseFloat (Get r.Query "min_facts")
  let minCalm := env.ParseFloat (Get r.Query "min_calm")
  let minDeep := env.ParseFloat (Get r.Query "min_deep")
  ⟨limit, offset, minFacts, minCalm, minDeep⟩

/-- The handler `handleGetArticles` of main.go. -/
def handleGetArticles {F : Type} (env : Env F) (pool : Pool F) (r : Request) : ResponseWriter F :=
  let w : ResponseWriter F := .new
  -- parse query parameters
  let p := parseQuery env r
  -- fetch articles
  let res := GetArticles pool p.limit p.offset p.minFacts p.minCalm p.minDeep
  match res.err with
  | some err => httpError w err.Error 500
  | none =>
    -- return response
    let response : ArticlesResponse F := ⟨res.articles, res.total, p.limit, p.offset⟩
    let w := w.HeaderSet "Content-Type" "application/json"
    w.Write (.articles response)

/-- The handler `handleGetArticle` of main.go. -/
def handleGetArticle {F : Type} (pool : Pool F) (r : Request) : ResponseWriter F :=
  let w : ResponseWriter F := .new
  let id := r.URLParam "id"
  match GetArticleByID pool id with
  | .error _ => httpError w "Article not found" 404
  | .ok article =>
    let w := w.HeaderSet "Content-Type" "application/json"
    w.Write (.article article)

/-- The handler `handlePostFeedback` of main.go. -/
def handlePostFeedback {F : Type} (env : Env F) (pool : Pool F) (r : Request) :
    ResponseWriter F :=
  let w : ResponseWriter F := .new
  match env.Decode r.Body with
  | .error _ => httpError w "Invalid request body" 400
  | .ok feedback =>
    -- validate feedback
    if feedback.ArticleID = "" ∨ feedback.Axis = "" then
      httpError w "Missing required fields" 400
    else if feedback.UserScore < 0 ∨ feedback.UserScore > 2 then
      httpError w "user_score must be 0, 1, or 2" 400
    else
      -- save feedback
      match SaveFeedback pool feedback with
      | some err => httpError w err.Error 500
      | none =>
        let w := w.WriteHeader 201
        w.Write (.object [("status", "success")])

/-- The handler `handleGetStats` of main.go. -/
def handleGetStats {F : Type} (pool : Pool F) : ResponseWriter F :=
  let w : ResponseWriter F := .new
  match GetStats pool with
  | .error err => httpError w err.Error 500
  | .ok stats =>
    let w := w.HeaderSet "Content-Type" "application/json"
    w.Write (.stats stats)

/-! ## The ordering key of a page -/

/-- The rank of `published_at` in the ordering key: an absent timestamp ranks above
every timestamp, as NULL does in the `ORDER BY` of the store. -/
def publishedKey : Option Time → WithTop Time
  | none => ⊤
  | some t => (t : WithTop Time)

/-- The ordering key (deep, calm, published_at) of an article, compared
lexicographically. -/
def sortKey {F : Type} (a : Article F) : Lex (F × Lex (F × WithTop Time)) :=
  toLex (a.DensityDeepScore, toLex (a.EmotiveCalmScore, publishedKey a.PublishedAt))

/-! ## Concrete inputs used to evaluate the definitions -/

/-- An environment over integer scores: every threshold parses to 0 and every body
decodes to one well-formed feedback entry. -/
def exEnv : Env Int :=
  ⟨fun _ => 0, fun _ => .ok ⟨"a1", "epistemic", 1⟩⟩

/-- A request whose query holds the given `limit` and `offset` values (an empty list:
the parameter is absent). -/
def exRequest (limit offset : List String) : Request :=
  ⟨fun key => if key = "limit" then limit else if key = "offset" then offset else [],
    fun _ => "a1", ""⟩

/-- An article over integer scores with the given id, timestamp and facts, calm and
deep scores. -/
def exArticle (id : String) (published : Option Time) (facts calm deep : Int) : Article Int :=
  ⟨id, "title", "url", "domain", published, 0, 0, facts, 0, 0, calm, 0, 0, deep⟩

/-- A table of four articles. -/
def exTable : List (Article Int) :=
  [exArticle "a1" (some 10) 5 1 2, exArticle "a2" none 7 3 2,
   exArticle "a3" (some 30) 1 3 2, exArticle "a4" (some 20) 9 8 1]

/-- The pool of a store holding `exTable`. -/
def exPool : Pool Int := Store.pool (fun _ => 0) true exTable

/-- A request for the article with the given id. -/
def exLookup (id : String) : Request :=
  ⟨fun _ => [], fun _ => id, ""⟩

/-- A pool whose connection is refused: every statement fails. -/
def exRefusedPool : Pool Int where
  QueryPage := fun _ _ _ _ _ =>
    ⟨some (.failure "connection refused"), [], some (.failure "connection refused")⟩
  QueryRowCount := fun _ _ _ => .error (.failure "connection refused")
  QueryRowByID := fun _ => .error (.failure "connection refused")
  ExecInsert := fun _ _ _ => some (.failure "connection refused")
  QueryRowStats := .error (.failure "connection refused")

/-- A pool over `exTable` whose page statement delivers one row and then loses the
connection: `rows.Next()` returns false with `rows.Err()` set. The count statement,
run afterwards, succeeds. -/
def exInterruptedPool : Pool Int where
  QueryPage := fun _ _ _ _ _ =>
    ⟨none, [.ok (exArticle "a2" none 7 3 2)], some (.failure "connection reset")⟩
  QueryRowCount := fun minFacts minCalm minDeep =>
    .ok [selectCount exTable minFacts minCalm minDeep]
  QueryRowByID := fun id => .ok (selectByID exTable id)
  ExecInsert := fun _ _ _ => none
  QueryRowStats := .ok [selectStats (fun _ => 0) exTable]

/-! ## Properties of `strconv.Atoi` -/

theorem atoiFastLoop_err (s : List Nat) (n v : Int) (e : NumError)
    (h : atoiFastLoop s n = (v, some e)) : v = 0 ∧ e = .ErrSyntax := by
  induction s generalizing n with
  | nil => simp [atoiFastLoop] at h
  | cons c rest ih =>
    simp only [atoiFastLoop] at h
    split at h
    · simp only [Prod.mk.injEq, Option.some.injEq] at h
      exact ⟨h.1.symm, h.2.symm⟩
    · exact ih _ h

theorem atoiFast_err (s : List Nat) (v : Int) (e : NumError)
    (h : atoiFast s = (v, some e)) : v = 0 ∧ e = .ErrSyntax := by
  unfold atoiFast at h
  cases s with
  | nil =>
    simp only [Prod.mk.injEq, Option.some.injEq] at h
    exact ⟨h.1.symm, h.2.symm⟩
  | cons c0 tl =>
    simp only at h
    by_cases hc : decide (c0 = 45 ∨ c0 = 43) = true ∧
        (if decide (c0 = 45 ∨ c0 = 43) = true then tl else c0 :: tl).length < 1
    · rw [if_pos hc] at h
      simp only [Prod.mk.injEq, Option.some.injEq] at h
      exact ⟨h.1.symm, h.2.symm⟩
    · rw [if_neg hc] at h
      generalize (if decide (c0 = 45 ∨ c0 = 43) = true then tl else c0 :: tl) = l at h
      rcases hq : atoiFastLoop l 0 with ⟨n, _ | e1⟩
      · rw [hq] at h
        simp at h
      · rw [hq] at h
        simp only [Prod.mk.injEq, Option.some.injEq] at h
        exact ⟨h.1.symm, h.2 ▸ (atoiFastLoop_err _ _ _ _ hq).2⟩

theorem ParseInt_syntax (s : List Nat) (v : Int) (h : ParseInt s = (v, some .ErrSyntax)) :
    v = 0 := by
  unfold ParseInt at h
  cases s with
  | nil =>
    simp only [Prod.mk.injEq] at h
    exact h.1.symm
  | cons c0 tl =>
    simp only at h
    rcases hq : ParseUint (if c0 = 43 then tl else if c0 = 45 then tl else c0 :: tl)
      with ⟨un, _ | _ | _⟩
    all_goals rw [hq] at h
    all_goals simp only at h
    · split_ifs at h <;> simp at h
    · simp only [Prod.mk.injEq] at h
      exact h.1.symm
    · split_ifs at h <;> simp at h

theorem ParseInt_range (s : List Nat) (v : Int) (h : ParseInt s = (v, some .ErrRange)) :
    v = if s.head? = some 45 then -9223372036854775808 else 9223372036854775807 := by
  unfold ParseInt at h
  cases s with
  | nil => simp at h
  | cons c0 tl =>
    simp only at h
    have key : ∀ un : Nat,
        (if decide (c0 = 45) = false ∧ un ≥ 2 ^ (intSize - 1) then
            (((2 ^ (intSize - 1) - 1 : Nat) : Int), some NumError.ErrRange)
          else if decide (c0 = 45) = true ∧ un > 2 ^ (intSize - 1) then
            (-((2 ^ (intSize - 1) : Nat) : Int), some NumError.ErrRange)
          else (if decide (c0 = 45) = true then -(un : Int) else (un : Int), none))
          = (v, some NumError.ErrRange) →
        v = if (c0 :: tl).head? = some 45 then -9223372036854775808
            else 9223372036854775807 := by
      intro un hk
      by_cases h1 : decide (c0 = 45) = false ∧ un ≥ 2 ^ (intSize - 1)
      · rw [if_pos h1] at hk
        have hc : c0 ≠ 45 := by simpa using h1.1
        rw [← (Prod.mk.inj hk).1]
        simp [hc, intSize]
      · rw [if_neg h1] at hk
        by_cases h2 : decide (c0 = 45) = true ∧ un > 2 ^ (intSize - 1)
        · rw [if_pos h2] at hk
          have hc : c0 = 45 := by simpa using h2.1
          rw [← (Prod.mk.inj hk).1]
          simp [hc, intSize]
        · rw [if_neg h2] at hk
          simp at hk
    rcases hq : ParseUint (if c0 = 43 then tl else if c0 = 45 then tl else c0 :: tl)
      with ⟨un, _ | _ | _⟩
    all_goals rw [hq] at h
    all_goals simp only at h
    · exact key un h
    · simp at h
    · exact key un h

/-- The value `Atoi` returns with a syntax error is 0. -/
theorem Atoi_syntax (str : String) (v : Int) (h : Atoi str = (v, some .ErrSyntax)) : v = 0 := by
  unfold Atoi at h
  simp only at h
  split_ifs at h
  · exact (atoiFast_err _ _ _ h).1
  · exact ParseInt_syntax _ _ h

/-- The value `Atoi` returns with a range error is the bound of the `int` range on
the side of the sign. -/
theorem Atoi_range (str : String) (v : Int) (h : Atoi str = (v, some .ErrRange)) :
    v = if (goBytes str).head? = some 45 then -9223372036854775808
        else 9223372036854775807 := by
  unfold Atoi at h
  simp only at h
  split_ifs at h
  · exact absurd (atoiFast_err _ _ _ h).2 (by decide)
  · exact ParseInt_range _ _ h

/-! ## handleGetArticles: the parsed parameters -/

theorem mem_body_handleGetArticles {F : Type} (env : Env F) (pool : Pool F) (r : Request)
    (resp : ArticlesResponse F)
    (h : Payload.articles resp ∈ (handleGetArticles env pool r).body) :
    (GetArticles pool (parseQuery env r).limit (parseQuery env r).offset
        (parseQuery env r).minFacts (parseQuery env r).minCalm (parseQuery env r).minDeep
      = ⟨resp.Articles, resp.Total, none⟩) ∧
    resp.Limit = (parseQuery env r).limit ∧ resp.Offset = (parseQuery env r).offset := by
  unfold handleGetArticles at h
  simp only at h
  rcases hres : GetArticles pool (parseQuery env r).limit (parseQuery env r).offset
      (parseQuery env r).minFacts (parseQuery env r).minCalm (parseQuery env r).minDeep
    with ⟨as, t, _ | e⟩
  · rw [hres] at h
    simp [ResponseWriter.Write, ResponseWriter.WriteHeader, ResponseWriter.HeaderSet,
      ResponseWriter.new] at h
    subst h
    exact ⟨rfl, rfl, rfl⟩
  · rw [hres] at h
    simp [httpError, ResponseWriter.Write, ResponseWriter.WriteHeader, ResponseWriter.HeaderSet,
      ResponseWriter.HeaderDel, ResponseWriter.new] at h

/-- C1: in `handleGetArticles` the limit passed to `GetArticles` is 20 when the limit
parameter parses to 0 (or is absent) and otherwise `min n 100` for the parsed integer
`n`; it never exceeds 100, and a response that carries articles echoes exactly the
limit that `GetArticles` was called with. -/
theorem handleGetArticles_limit {F : Type} (env : Env F) (pool : Pool F) (r : Request) :
    (parseQuery env r).limit =
        (if (Atoi (Get r.Query "limit")).1 = 0 then 20
         else min (Atoi (Get r.Query "limit")).1 100) ∧
    (r.Query "limit" = [] → (parseQuery env r).limit = 20) ∧
    (parseQuery env r).limit ≤ 100 ∧
    ∀ resp : ArticlesResponse F, Payload.articles resp ∈ (handleGetArticles env pool r).body →
      resp.Limit ≤ 100 ∧ resp.Limit = (parseQuery env r).limit ∧
      GetArticles pool resp.Limit resp.Offset (parseQuery env r).minFacts
        (parseQuery env r).minCalm (parseQuery env r).minDeep
        = ⟨resp.Articles, resp.Total, none⟩ := by
  have hlim : (parseQuery env r).limit =
      (if (Atoi (Get r.Query "limit")).1 = 0 then 20
       else min (Atoi (Get r.Query "limit")).1 100) := by
    simp only [parseQuery]
    split_ifs <;> omega
  have hle : (parseQuery env r).limit ≤ 100 := by
    rw [hlim]
    split_ifs <;> omega
  refine ⟨hlim, ?_, hle, ?_⟩
  · intro habs
    have h0 : Atoi (Get r.Query "limit") = (0, some .ErrSyntax) := by
      simp only [Get, habs]
      decide
    rw [hlim, h0]
    simp
  · intro resp hmem
    obtain ⟨hcall, hl, ho⟩ := mem_body_handleGetArticles env pool r resp hmem
    refine ⟨hl ▸ hle, hl, ?_⟩
    rw [hl, ho]
    exact hcall

/-- Witness of C1: a request without a limit parameter against the example store. -/
theorem handleGetArticles_limit_witness :
    (exRequest [] []).Query "limit" = [] ∧
    Payload.articles ⟨[exArticle "a2" none 7 3 2, exArticle "a3" (some 30) 1 3 2,
        exArticle "a1" (some 10) 5 1 2, exArticle "a4" (some 20) 9 8 1], 4, 20, 0⟩
      ∈ (handleGetArticles exEnv exPool (exRequest [] [])).body ∧
    (parseQuery exEnv (exRequest [] [])).limit = 20 ∧ (20 : Int) ≤ 100 :=
  ⟨rfl, by decide,
    (handleGetArticles_limit exEnv exPool (exRequest [] [])).2.1 rfl,
    ((handleGetArticles_limit exEnv exPool (exRequest [] [])).2.2.2
      ⟨[exArticle "a2" none 7 3 2, exArticle "a3" (some 30) 1 3 2,
        exArticle "a1" (some 10) 5 1 2, exArticle "a4" (some 20) 9 8 1], 4, 20, 0⟩
      (by decide)).1⟩

theorem parseQuery_limit_value {F : Type} (env : Env F) (r : Request) :
    (parseQuery env r).limit =
      (if (Atoi (Get r.Query "limit")).1 = 0 then 20
       else min (Atoi (Get r.Query "limit")).1 100) := by
  simp only [parseQuery]
  split_ifs <;> omega

/-- C4, as stated, fails: the 20-digit string "99999999999999999999" is rejected by
`Atoi` (range error), yet as limit it makes the handler pass 100, not 20, and as
offset it makes the handler pass 9223372036854775807, not 0. -/
theorem parseQuery_out_of_range_counterexample :
    (Atoi "99999999999999999999").2 = some .ErrRange ∧
    (parseQuery exEnv (exRequest ["99999999999999999999"] ["99999999999999999999"])).limit
      = 100 ∧
    (parseQuery exEnv (exRequest ["99999999999999999999"] ["99999999999999999999"])).offset
      = 9223372036854775807 ∧
    (parseQuery exEnv (exRequest [] [])).limit = 20 ∧
    (parseQuery exEnv (exRequest [] [])).offset = 0 := by
  decide

/-- C4 (amended): a limit or offset string that `Atoi` rejects with a syntax error is
passed to `GetArticles` as the default (limit 20, offset 0), as is an absent
parameter; a string that `Atoi` rejects with a range error is passed as the bound of
the `int` range on the side of its sign, which is what `Atoi` returns: for a string
that starts with `-` the limit and the offset are the lower bound
-9223372036854775808, for any other the limit is 100 (the upper bound, clamped) and
the offset is the upper bound 9223372036854775807. -/
theorem parseQuery_atoi_failure {F : Type} (env : Env F) (r : Request) :
    ((Atoi (Get r.Query "limit")).2 = some .ErrSyntax → (parseQuery env r).limit = 20) ∧
    ((Atoi (Get r.Query "offset")).2 = some .ErrSyntax → (parseQuery env r).offset = 0) ∧
    (r.Query "limit" = [] → (parseQuery env r).limit = 20) ∧
    (r.Query "offset" = [] → (parseQuery env r).offset = 0) ∧
    ((Atoi (Get r.Query "limit")).2 = some .ErrRange →
      (Atoi (Get r.Query "limit")).1 =
        (if (goBytes (Get r.Query "limit")).head? = some 45 then -9223372036854775808
         else 9223372036854775807) ∧
      (parseQuery env r).limit =
        (if (goBytes (Get r.Query "limit")).head? = some 45 then -9223372036854775808
         else 100)) ∧
    ((Atoi (Get r.Query "offset")).2 = some .ErrRange →
      (parseQuery env r).offset = (Atoi (Get r.Query "offset")).1 ∧
      (parseQuery env r).offset =
        (if (goBytes (Get r.Query "offset")).head? = some 45 then -9223372036854775808
         else 9223372036854775807)) := by
  have hempty : Atoi "" = (0, some .ErrSyntax) := by decide
  refine ⟨?_, ?_, ?_, ?_, ?_, ?_⟩
  · intro h
    have h0 : (Atoi (Get r.Query "limit")).1 = 0 := Atoi_syntax _ _ (Prod.ext rfl h)
    simp [parseQuery, h0]
  · intro h
    exact Atoi_syntax _ _ (Prod.ext rfl h)
  · intro h
    simp [parseQuery, Get, h, hempty]
  · intro h
    simp [parseQuery, Get, h, hempty]
  · intro h
    have h1 : (Atoi (Get r.Query "limit")).1 =
        (if (goBytes (Get r.Query "limit")).head? = some 45 then -9223372036854775808
         else 9223372036854775807) := Atoi_range _ _ (Prod.ext rfl h)
    refine ⟨h1, ?_⟩
    rw [parseQuery_limit_value, h1]
    by_cases hc : (goBytes (Get r.Query "limit")).head? = some 45
    · simp [hc]
    · simp [hc]
  · intro h
    exact ⟨rfl, Atoi_range _ _ (Prod.ext rfl h)⟩

/-- Witness of C4 (amended): "abc" and "1x" are syntax errors, a request may carry
neither parameter, and the 20-digit strings are range errors: with the minus sign as
limit and without it as offset, and the other way round. -/
theorem parseQuery_atoi_failure_witness :
    ((Atoi "abc").2 = some .ErrSyntax ∧ (parseQuery exEnv (exRequest ["abc"] ["1x"])).limit = 20) ∧
    ((Atoi "1x").2 = some .ErrSyntax ∧ (parseQuery exEnv (exRequest ["abc"] ["1x"])).offset = 0) ∧
    (parseQuery exEnv (exRequest [] [])).limit = 20 ∧
    (parseQuery exEnv (exRequest [] [])).offset = 0 ∧
    ((Atoi "-99999999999999999999").2 = some .ErrRange ∧
      (Atoi "-99999999999999999999").1 = -9223372036854775808 ∧
      (parseQuery exEnv (exRequest ["-99999999999999999999"] ["99999999999999999999"])).limit
        = -9223372036854775808) ∧
    ((Atoi "99999999999999999999").2 = some .ErrRange ∧
      (parseQuery exEnv (exRequest ["-99999999999999999999"] ["99999999999999999999"])).offset
        = 9223372036854775807) ∧
    ((Atoi "99999999999999999999").1 = 9223372036854775807 ∧
      (parseQuery exEnv (exRequest ["99999999999999999999"] ["-99999999999999999999"])).limit
        = 100) ∧
    (parseQuery exEnv (exRequest ["99999999999999999999"] ["-99999999999999999999"])).offset
      = -9223372036854775808 :=
  ⟨⟨by decide, (parseQuery_atoi_failure exEnv (exRequest ["abc"] ["1x"])).1 (by decide)⟩,
    ⟨by decide, (parseQuery_atoi_failure exEnv (exRequest ["abc"] ["1x"])).2.1 (by decide)⟩,
    (parseQuery_atoi_failure exEnv (exRequest [] [])).2.2.1 rfl,
    (parseQuery_atoi_failure exEnv (exRequest [] [])).2.2.2.1 rfl,
    ⟨by decide,
      ((parseQuery_atoi_failure exEnv
        (exRequest ["-99999999999999999999"] ["99999999999999999999"])).2.2.2.2.1
          (by decide)).1,
      ((parseQuery_atoi_failure exEnv
        (exRequest ["-99999999999999999999"] ["99999999999999999999"])).2.2.2.2.1
          (by decide)).2⟩,
    ⟨by decide,
      ((parseQuery_atoi_failure exEnv
        (exRequest ["-99999999999999999999"] ["99999999999999999999"])).2.2.2.2.2
          (by decide)).2⟩,
    ⟨((parseQuery_atoi_failure exEnv
        (exRequest ["99999999999999999999"] ["-99999999999999999999"])).2.2.2.2.1
          (by decide)).1,
      ((parseQuery_atoi_failure exEnv
        (exRequest ["99999999999999999999"] ["-99999999999999999999"])).2.2.2.2.1
          (by decide)).2⟩,
    ((parseQuery_atoi_failure exEnv
      (exRequest ["99999999999999999999"] ["-99999999999999999999"])).2.2.2.2.2
        (by decide)).2⟩

/-! ## handlePostFeedback -/

theorem httpError_status {F : Type} (msg : String) (code : Nat) :
    (httpError (ResponseWriter.new : ResponseWriter F) msg code).status = code := by
  simp [httpError, ResponseWriter.Write, ResponseWriter.WriteHeader, ResponseWriter.HeaderSet,
    ResponseWriter.HeaderDel, ResponseWriter.new]

/-- C2: the status of `handlePostFeedback` is 400 when the body fails to decode, or
`article_id` is empty, or `axis` is empty, or `user_score` is not 0, 1 or 2; otherwise
it is 201 when `SaveFeedback` succeeds and 500 when it fails. So `user_score = 3` gets
400, and a score of 0, 1 or 2 with non-empty `article_id` and `axis` reaches
`SaveFeedback` and gets 201 or 500. -/
theorem handlePostFeedback_status {F : Type} (env : Env F) (pool : Pool F) (r : Request) :
    ((handlePostFeedback env pool r).status =
      match env.Decode r.Body with
      | .error _ => 400
      | .ok fb =>
        if fb.ArticleID = "" ∨ fb.Axis = "" ∨
            ¬ (fb.UserScore = 0 ∨ fb.UserScore = 1 ∨ fb.UserScore = 2) then 400
        else
          match SaveFeedback pool fb with
          | none => 201
          | some _ => 500) ∧
    (∀ fb, env.Decode r.Body = .ok fb → fb.UserScore = 3 →
      (handlePostFeedback env pool r).status = 400) ∧
    (∀ fb, env.Decode r.Body = .ok fb → fb.ArticleID ≠ "" → fb.Axis ≠ "" →
      (fb.UserScore = 0 ∨ fb.UserScore = 1 ∨ fb.UserScore = 2) →
      ((handlePostFeedback env pool r).status = 201 ∧ SaveFeedback pool fb = none) ∨
      ((handlePostFeedback env pool r).status = 500 ∧ SaveFeedback pool fb ≠ none)) := by
  have key : ∀ fb, env.Decode r.Body = .ok fb →
      (handlePostFeedback env pool r).status =
        if fb.ArticleID = "" ∨ fb.Axis = "" ∨
            ¬ (fb.UserScore = 0 ∨ fb.UserScore = 1 ∨ fb.UserScore = 2) then 400
        else
          match SaveFeedback pool fb with
          | none => 201
          | some _ => 500 := by
    intro fb hfb
    unfold handlePostFeedback
    simp only [hfb]
    by_cases h1 : fb.ArticleID = "" ∨ fb.Axis = ""
    · rw [if_pos h1, httpError_status, if_pos]
      rcases h1 with h1 | h1
      · exact Or.inl h1
      · exact Or.inr (Or.inl h1)
    · rw [if_neg h1]
      have hid : fb.ArticleID ≠ "" := fun h => h1 (Or.inl h)
      have hax : fb.Axis ≠ "" := fun h => h1 (Or.inr h)
      by_cases h2 : fb.UserScore < 0 ∨ fb.UserScore > 2
      · rw [if_pos h2, httpError_status, if_pos]
        right; right
        omega
      · rw [if_neg h2, if_neg]
        · rcases hs : SaveFeedback pool fb with _ | e
          · simp [ResponseWriter.Write, ResponseWriter.WriteHeader, ResponseWriter.new]
          · simp only [httpError_status]
        · rintro (h | h | h)
          · exact hid h
          · exact hax h
          · omega
  refine ⟨?_, ?_, ?_⟩
  · rcases hd : env.Decode r.Body with e | fb
    · unfold handlePostFeedback
      simp only [hd, httpError_status]
    · rw [key fb hd]
  · intro fb hfb h3
    rw [key fb hfb, if_pos]
    right; right
    omega
  · intro fb hfb hid hax hsc
    rw [key fb hfb, if_neg]
    · rcases hs : SaveFeedback pool fb with _ | e
      · left; simp
      · right; simp
    · rintro (h | h | h)
      · exact hid h
      · exact hax h
      · exact h hsc

/-- Witness of C2: a body that decodes to score 3 is refused with 400, and one that
decodes to a well-formed entry with score 1 is saved and answered with 201. -/
theorem handlePostFeedback_status_witness :
    (handlePostFeedback ⟨fun _ => (0 : Int), fun _ => .ok ⟨"a1", "epistemic", 3⟩⟩ exPool
        (exRequest [] [])).status = 400 ∧
    (((handlePostFeedback exEnv exPool (exRequest [] [])).status = 201 ∧
        SaveFeedback exPool ⟨"a1", "epistemic", 1⟩ = none) ∨
      ((handlePostFeedback exEnv exPool (exRequest [] [])).status = 500 ∧
        SaveFeedback exPool ⟨"a1", "epistemic", 1⟩ ≠ none)) :=
  ⟨(handlePostFeedback_status ⟨fun _ => (0 : Int), fun _ => .ok ⟨"a1", "epistemic", 3⟩⟩ exPool
      (exRequest [] [])).2.1 ⟨"a1", "epistemic", 3⟩ rfl rfl,
    (handlePostFeedback_status exEnv exPool (exRequest [] [])).2.2 ⟨"a1", "epistemic", 1⟩ rfl
      (by decide) (by decide) (by decide)⟩

/-! ## GetArticles against a store -/

theorem scanRows_ok {F : Type} (l acc : List (Article F)) :
    scanRows (l.map Except.ok) acc = .ok (acc ++ l) := by
  induction l generalizing acc with
  | nil => simp [scanRows]
  | cons a l ih => simp [scanRows, ih]

section StoreProofs
variable {F : Type} [LinearOrder F]

theorem publishedDesc_iff (x y : Option Time) :
    publishedDesc x y = true ↔ publishedKey y ≤ publishedKey x := by
  cases x <;> cases y <;> simp [publishedDesc, publishedKey]

theorem orderBy_iff (a b : Article F) : orderBy a b = true ↔ sortKey b ≤ sortKey a := by
  unfold orderBy sortKey
  rw [Prod.Lex.le_iff]
  simp only
  rw [Prod.Lex.le_iff]
  simp only
  rw [← publishedDesc_iff]
  split_ifs with h1 h2 h3 h4
  · simp [h1]
  · simp only [Bool.false_eq_true, false_iff]
    rintro (h | ⟨h, _⟩)
    · exact h1 h
    · exact absurd h2 (by rw [h]; exact lt_irrefl _)
  · have he : b.DensityDeepScore = a.DensityDeepScore :=
      le_antisymm (not_lt.mp h2) (not_lt.mp h1)
    simp [he, h3]
  · have he : b.DensityDeepScore = a.DensityDeepScore :=
      le_antisymm (not_lt.mp h2) (not_lt.mp h1)
    simp only [Bool.false_eq_true, false_iff]
    rintro (h | ⟨_, h | ⟨h, _⟩⟩)
    · exact h1 h
    · exact h3 h
    · exact absurd h4 (by rw [h]; exact lt_irrefl _)
  · have he : b.DensityDeepScore = a.DensityDeepScore :=
      le_antisymm (not_lt.mp h2) (not_lt.mp h1)
    have hc : b.EmotiveCalmScore = a.EmotiveCalmScore :=
      le_antisymm (not_lt.mp h4) (not_lt.mp h3)
    simp [he, hc]

instance orderBy_total : IsTotal (Article F) (fun a b => orderBy a b = true) :=
  ⟨fun a b => by
    simp only [orderBy_iff]
    exact le_total _ _⟩

instance orderBy_trans : IsTrans (Article F) (fun a b => orderBy a b = true) :=
  ⟨fun a b c hab hbc => by
    simp only [orderBy_iff] at *
    exact le_trans hbc hab⟩

theorem selectOrdered_sorted (articles : List (Article F)) (minFacts minCalm minDeep : F) :
    (selectOrdered articles minFacts minCalm minDeep).Pairwise
      (fun a b => sortKey b ≤ sortKey a) := by
  have h := List.sorted_insertionSort (fun a b : Article F => orderBy a b = true)
    (articles.filter (whereClause minFacts minCalm minDeep))
  unfold selectOrdered
  exact List.Pairwise.imp (fun hab => (orderBy_iff _ _).mp hab) h

theorem selectOrdered_perm (articles : List (Article F)) (minFacts minCalm minDeep : F) :
    (selectOrdered articles minFacts minCalm minDeep).Perm
      (articles.filter (whereClause minFacts minCalm minDeep)) :=
  List.perm_insertionSort _ _

/-- The result of `GetArticles` against a store, for a limit and offset the store
accepts. -/
theorem GetArticles_store (avg : List F → F) (deferred : Bool) (articles : List (Article F))
    (limit offset : Int) (minFacts minCalm minDeep : F) (hl : 0 ≤ limit) (ho : 0 ≤ offset) :
    GetArticles (Store.pool avg deferred articles) limit offset minFacts minCalm minDeep =
      ⟨selectPage articles minFacts minCalm minDeep limit.toNat offset.toNat,
        selectCount articles minFacts minCalm minDeep, none⟩ := by
  simp [GetArticles, Store.pool, not_lt.mpr hl, not_lt.mpr ho, scanRows_ok, RowScan]

/-- The result of `GetArticles` against a store that rejects the limit or offset. -/
theorem GetArticles_store_rejected (avg : List F → F) (deferred : Bool)
    (articles : List (Article F)) (limit offset : Int) (minFacts minCalm minDeep : F)
    (h : limit < 0 ∨ offset < 0) :
    (GetArticles (Store.pool avg deferred articles) limit offset minFacts minCalm minDeep).articles
        = [] ∧
    ((GetArticles (Store.pool avg deferred articles) limit offset minFacts minCalm minDeep).err
        = none →
      (GetArticles (Store.pool avg deferred articles) limit offset minFacts minCalm minDeep).total
        = selectCount articles minFacts minCalm minDeep) := by
  by_cases hl : limit < 0
  · cases deferred <;> simp [GetArticles, Store.pool, hl, scanRows, RowScan]
  · have ho : offset < 0 := h.resolve_left hl
    cases deferred <;> simp [GetArticles, Store.pool, hl, ho, scanRows, RowScan]

theorem whereClause_iff (minFacts minCalm minDeep : F) (a : Article F) :
    whereClause minFacts minCalm minDeep a = true ↔
      a.EpistemicFactsScore ≥ minFacts ∧ a.EmotiveCalmScore ≥ minCalm ∧
        a.DensityDeepScore ≥ minDeep := by
  simp [whereClause, and_assoc]

/-- The page of `GetArticles` against a store is empty or the page the store selects. -/
theorem GetArticles_store_articles (avg : List F → F) (deferred : Bool)
    (articles : List (Article F)) (limit offset : Int) (minFacts minCalm minDeep : F) :
    (GetArticles (Store.pool avg deferred articles) limit offset minFacts minCalm minDeep).articles
        = [] ∨
    (GetArticles (Store.pool avg deferred articles) limit offset minFacts minCalm minDeep).articles
        = selectPage articles minFacts minCalm minDeep limit.toNat offset.toNat := by
  by_cases h : limit < 0 ∨ offset < 0
  · exact Or.inl (GetArticles_store_rejected avg deferred articles limit offset _ _ _ h).1
  · right
    rw [GetArticles_store avg deferred articles limit offset _ _ _ (by omega) (by omega)]

theorem GetArticles_store_total (avg : List F → F) (deferred : Bool)
    (articles : List (Article F)) (limit offset : Int) (minFacts minCalm minDeep : F)
    (h : (GetArticles (Store.pool avg deferred articles) limit offset minFacts minCalm
      minDeep).err = none) :
    (GetArticles (Store.pool avg deferred articles) limit offset minFacts minCalm minDeep).total
      = selectCount articles minFacts minCalm minDeep := by
  by_cases hr : limit < 0 ∨ offset < 0
  · exact (GetArticles_store_rejected avg deferred articles limit offset _ _ _ hr).2 h
  · rw [GetArticles_store avg deferred articles limit offset _ _ _ (by omega) (by omega)]

theorem mem_selectPage (articles : List (Article F)) (minFacts minCalm minDeep : F)
    (limit offset : Nat) (a : Article F)
    (h : a ∈ selectPage articles minFacts minCalm minDeep limit offset) :
    a ∈ articles ∧ whereClause minFacts minCalm minDeep a = true := by
  have h1 : a ∈ selectOrdered articles minFacts minCalm minDeep :=
    List.mem_of_mem_drop (List.mem_of_mem_take h)
  have h2 := (selectOrdered_perm articles minFacts minCalm minDeep).mem_iff.mp h1
  exact List.mem_filter.mp h2

/-- C7: every article in the page `GetArticles` returns from a store satisfies
`epistemic_facts_score >= minFacts`, `emotive_calm_score >= minCalm` and
`density_deep_score >= minDeep`; with the three thresholds 0 and scores that are not
negative, the filter keeps every row of the table and the total is the size of the
table. -/
theorem GetArticles_filter [Zero F] (avg : List F → F) (deferred : Bool)
    (articles : List (Article F)) (limit offset : Int) (minFacts minCalm minDeep : F) :
    (∀ a ∈ (GetArticles (Store.pool avg deferred articles) limit offset minFacts minCalm
        minDeep).articles,
      a.EpistemicFactsScore ≥ minFacts ∧ a.EmotiveCalmScore ≥ minCalm ∧
        a.DensityDeepScore ≥ minDeep) ∧
    ((∀ a ∈ articles, 0 ≤ a.EpistemicFactsScore ∧ 0 ≤ a.EmotiveCalmScore ∧
        0 ≤ a.DensityDeepScore) →
      articles.filter (whereClause 0 0 0) = articles ∧
      ((GetArticles (Store.pool avg deferred articles) limit offset 0 0 0).err = none →
        (GetArticles (Store.pool avg deferred articles) limit offset 0 0 0).total
          = articles.length)) := by
  constructor
  · intro a ha
    rcases GetArticles_store_articles avg deferred articles limit offset minFacts minCalm minDeep
      with h | h
    · rw [h] at ha
      cases ha
    · rw [h] at ha
      exact (whereClause_iff _ _ _ _).mp (mem_selectPage _ _ _ _ _ _ _ ha).2
  · intro hpos
    have hfilter : articles.filter (whereClause 0 0 0) = articles :=
      List.filter_eq_self.mpr (fun a ha => (whereClause_iff _ _ _ _).mpr (hpos a ha))
    refine ⟨hfilter, fun herr => ?_⟩
    rw [GetArticles_store_total avg deferred articles limit offset 0 0 0 herr, selectCount,
      hfilter]

/-- Witness of C7: the page of the example store for limit 10, offset 0 and thresholds
(5, 1, 2) holds two articles, and no score of the example table is negative. -/
theorem GetArticles_filter_witness :
    (GetArticles exPool 10 0 5 1 2).articles
        = [exArticle "a2" none 7 3 2, exArticle "a1" (some 10) 5 1 2] ∧
    ((exArticle "a2" none 7 3 2).EpistemicFactsScore ≥ 5 ∧
      (exArticle "a2" none 7 3 2).EmotiveCalmScore ≥ 1 ∧
      (exArticle "a2" none 7 3 2).DensityDeepScore ≥ 2) ∧
    (exTable.filter (whereClause 0 0 0) = exTable ∧
      ((GetArticles exPool 10 0 0 0 0).err = none →
        (GetArticles exPool 10 0 0 0 0).total = exTable.length)) :=
  ⟨by decide,
    (GetArticles_filter (fun _ => 0) true exTable 10 0 5 1 2).1 (exArticle "a2" none 7 3 2)
      (by decide),
    (GetArticles_filter (fun _ => 0) true exTable 10 0 5 1 2).2 (by decide)⟩

/-- C8: the page `GetArticles` returns from a store is sorted by (deep, calm,
published_at) descending: for every adjacent pair the key of the earlier article is
lexicographically greater than or equal to the key of the later one, an absent
`published_at` ranking above every timestamp (the store puts NULL first under
`DESC`). -/
theorem GetArticles_sorted (avg : List F → F) (deferred : Bool)
    (articles : List (Article F)) (limit offset : Int) (minFacts minCalm minDeep : F) :
    List.Chain' (fun a b => sortKey b ≤ sortKey a)
      (GetArticles (Store.pool avg deferred articles) limit offset minFacts minCalm
        minDeep).articles := by
  rcases GetArticles_store_articles avg deferred articles limit offset minFacts minCalm minDeep
    with h | h
  · rw [h]
    exact List.chain'_nil
  · rw [h]
    exact List.Pairwise.chain'
      (List.Pairwise.take (List.Pairwise.drop (selectOrdered_sorted articles _ _ _)))

end StoreProofs

/-! ## Failure paths -/

/-- C3, evaluated: `handleGetArticle` answers 404 both when no row has the identifier
(`ErrNoRows`) and when the lookup fails because the connection is refused; the second
is not answered with 500, although `GetArticleByID` returns two different errors. -/
theorem handleGetArticle_failure_status :
    GetArticleByID exPool "missing" = .error (.wrapped "query failed" .ErrNoRows) ∧
    (handleGetArticle exPool (exLookup "missing")).status = 404 ∧
    GetArticleByID exRefusedPool "a1"
      = .error (.wrapped "query failed" (.failure "connection refused")) ∧
    (handleGetArticle exRefusedPool (exLookup "a1")).status = 404 ∧
    (handleGetArticle exRefusedPool (exLookup "a1")).status ≠ 500 ∧
    (handleGetArticle exPool (exLookup "a1")).status = 200 :=
  ⟨rfl, by decide, rfl, by decide, by decide, by decide⟩

/-- C5, evaluated: when the row iteration ends with an error after one row was read,
`GetArticles` returns that one row with the total and a nil error (three rows match
the filter); `handleGetArticles` answers 200. -/
theorem GetArticles_interrupted :
    (exInterruptedPool.QueryPage 1 1 2 20 0).iterErr = some (.failure "connection reset") ∧
    (GetArticles exInterruptedPool 20 0 1 1 2).articles = [exArticle "a2" none 7 3 2] ∧
    (GetArticles exInterruptedPool 20 0 1 1 2).total = 3 ∧
    (GetArticles exInterruptedPool 20 0 1 1 2).err = none ∧
    (GetArticles exPool 20 0 1 1 2).articles.length = 3 ∧
    (handleGetArticles exEnv exInterruptedPool (exRequest [] [])).status = 200 := by
  decide

/-- The other failures of `GetArticles` return no articles, total 0 and an error: a
failing page query, a row that fails to decode, a failing count query. -/
theorem GetArticles_failure {F : Type} (pool : Pool F) (limit offset : Int)
    (minFacts minCalm minDeep : F)
    (h : (pool.QueryPage minFacts minCalm minDeep limit offset).err ≠ none ∨
      (∃ e, Except.error e ∈ (pool.QueryPage minFacts minCalm minDeep limit offset).scans) ∨
      (∃ e, pool.QueryRowCount minFacts minCalm minDeep = .error e) ∨
      pool.QueryRowCount minFacts minCalm minDeep = .ok []) :
    (GetArticles pool limit offset minFacts minCalm minDeep).articles = [] ∧
    (GetArticles pool limit offset minFacts minCalm minDeep).total = 0 ∧
    (GetArticles pool limit offset minFacts minCalm minDeep).err ≠ none := by
  have hscan : ∀ (l : List (Except GoError (Article F))) (acc : List (Article F)) (e : GoError),
      Except.error e ∈ l → ∃ e2, scanRows l acc = .error e2 := by
    intro l
    induction l with
    | nil => intro acc e he; cases he
    | cons x l ih =>
      intro acc e he
      cases x with
      | error e1 => exact ⟨_, rfl⟩
      | ok a =>
        simp only [scanRows]
        rcases List.mem_cons.mp he with h1 | h1
        · cases h1
        · exact ih _ e h1
  unfold GetArticles
  simp only
  rcases hq : (pool.QueryPage minFacts minCalm minDeep limit offset).err with _ | e
  · rcases hs : scanRows (pool.QueryPage minFacts minCalm minDeep limit offset).scans []
      with e2 | as
    · simp
    · rcases hc : pool.QueryRowCount minFacts minCalm minDeep with e3 | ns
      · simp [RowScan]
      · rcases h with h | ⟨e, h⟩ | ⟨e, h⟩ | h
        · exact absurd hq h
        · obtain ⟨e2, he2⟩ := hscan _ [] e h
          rw [hs] at he2
          cases he2
        · rw [hc] at h
          cases h
        · rw [hc] at h
          cases h
          simp [RowScan]
  · simp

/-- C6, evaluated: on an empty table the aggregate row is a count of 0 with three NULL
averages; `GetStats` fails to scan NULL into a `float64` and returns an error, and
`handleGetStats` answers 500. -/
theorem GetStats_empty_table {F : Type} [LinearOrder F] (avg : List F → F) (deferred : Bool) :
    (Store.pool avg deferred ([] : List (Article F))).QueryRowStats
      = .ok [⟨0, none, none, none⟩] ∧
    GetStats (Store.pool avg deferred ([] : List (Article F)))
      = .error (.wrapped "query failed" (.failure "cannot scan NULL into *float64")) ∧
    (handleGetStats (Store.pool avg deferred ([] : List (Article F)))).status = 500 := by
  refine ⟨rfl, rfl, ?_⟩
  simp [handleGetStats, GetStats, RowScan, Store.pool, selectStats, scanStats, scanFloat64,
    httpError_status]

/-- C10, evaluated: the 201 response of `handlePostFeedback` is sent without a
`Content-Type` header set by the handler, while the 200 responses of
`handleGetArticles`, `handleGetArticle` and `handleGetStats` carry
`application/json`. -/
theorem handlePostFeedback_content_type :
    (handlePostFeedback exEnv exPool (exRequest [] [])).status = 201 ∧
    (handlePostFeedback exEnv exPool (exRequest [] [])).sent "Content-Type" = none ∧
    (handlePostFeedback exEnv exPool (exRequest [] [])).sentHeader = [] ∧
    (handleGetArticles exEnv exPool (exRequest [] [])).status = 200 ∧
    (handleGetArticles exEnv exPool (exRequest [] [])).sent "Content-Type"
      = some "application/json" ∧
    (handleGetArticle exPool (exLookup "a1")).status = 200 ∧
    (handleGetArticle exPool (exLookup "a1")).sent "Content-Type" = some "application/json" ∧
    (handleGetStats exPool).status = 200 ∧
    (handleGetStats exPool).sent "Content-Type" = some "application/json" := by
  decide

end Seithi
